import Mathlib

/-!
Shallow embedding of the query-routing core of the AI-delegator repository.

Embedded source files:
  * `src/agents/delegating-agent.js` — the orchestrator (`DelegatingAgent`):
    `analyzeQuery`, `routeDecision`, `executeChartTool`, `executeRAGAgent`,
    `directResponse`, `combineResults`, `processQuery`.
  * `src/agents/rag-agent.js` — the retrieval handler (`RAGAgent`):
    `query`, `directSearch` (with its three-tier fallback chain and the
    inline keyword extraction).
  * `src/tools/chart-tool.js` — the chart tool (`ChartTool._call`,
    `generateMockData`).

Modelling conventions:
  * External collaborators (the Gemini completion model behind the LangChain
    prompt/chain calls, and the Weaviate client) are an `Env` of oracle
    functions returning `Except String _`: `.error msg` models the JS call
    throwing an exception whose `.message` is `msg`.
  * `JSON.parse` of a completion response is folded into the corresponding
    oracle: `chartExtract` returns `Except String (Option ChartParams)`,
    where `.ok none` models a completion reply whose body fails to parse as
    JSON and `.error` models the completion call itself throwing.
  * The Weaviate client responses are modelled at the level the code consumes
    them: lists of items with `fileId`, `question`, `answer` and an optional
    `_additional.distance` value (the numeric distance abstracted as `Int`).
  * JS string coercions are modelled explicitly: `jsOr` is the `x || dflt`
    idiom on possibly-missing / possibly-empty strings, `jsStr` is the
    string coercion of a possibly-`undefined` value.
  * LangGraph channel semantics: every channel of the state schema uses the
    last-write-wins reducer except `messages`, whose reducer concatenates
    the node's returned array onto the existing channel value; the nodes all
    return `[...state.messages, newMsg]`, so the channel value after a node
    is `old ++ (old ++ [newMsg])`.  `chanMsgs` implements exactly that.
  * The fields `chartToolRuns` / `ragAgentRuns` on the graph state are ghost
    instrumentation (not present in the JS state schema): they count the
    calls to `chartTool` / `ragAgent.query` in order to state the
    single-dispatch property.
-/

/-- JS `toLowerCase()`, character by character (`Char.toLower` is
ASCII-only, which covers the token vocabulary of this program). -/
def jsToLower (s : String) : String :=
  String.mk (s.data.map Char.toLower)

/-- JS `trim()`: drop leading and trailing whitespace. -/
def jsTrim (s : String) : String :=
  String.mk (((s.data.dropWhile Char.isWhitespace).reverse.dropWhile
    Char.isWhitespace).reverse)

/-- Split a character list at every occurrence of `sep`, keeping empty
segments, exactly like JS `split` on a single-character separator
(`"".split(' ')` is `[""]`, `"a  b".split(' ')` is `["a", "", "b"]`). -/
def splitChars (sep : Char) : List Char → List (List Char)
  | [] => [[]]
  | c :: cs =>
      let rest := splitChars sep cs
      if c = sep then [] :: rest
      else
        match rest with
        | [] => [[c]]
        | r :: rs => (c :: r) :: rs

/-- JS `split(' ')`. -/
def jsSplitSpace (s : String) : List String :=
  (splitChars ' ' s.data).map String.mk

/-- JS `x || dflt` on an optional string field: `undefined` and the empty
string are falsy. -/
def jsOr (o : Option String) (dflt : String) : String :=
  match o with
  | some s => if s = "" then dflt else s
  | none => dflt

/-- JS string coercion of a possibly-`undefined` value (string concatenation
with `undefined` yields the text "undefined"). -/
def jsStr (o : Option String) : String :=
  o.getD "undefined"

/-- JS `x || []` on an optional array field. -/
def jsList (o : Option (List String)) : List String :=
  o.getD []

/-- Whether an `Except` value is an error (models "the awaited call threw"). -/
def exceptErr {ε α : Type} : Except ε α → Bool
  | .error _ => true
  | .ok _ => false

/-! ## Chart tool (`src/tools/chart-tool.js`) -/

/-- A CSS color value as it appears in the chart templates: either a single
color string or an array of color strings. -/
inductive ColorSpec where
  | one : String → ColorSpec
  | many : List String → ColorSpec
deriving DecidableEq, Repr

/-- One dataset of the mock chart data (`generateMockData`); optional fields
are omitted (`none`) when the template for a chart kind does not set them. -/
structure Dataset where
  label : Option String := none
  data : List Int := []
  borderColor : Option ColorSpec := none
  backgroundColor : Option ColorSpec := none
  tension : Option ℚ := none
  borderWidth : Option Nat := none
  fill : Option Bool := none
  pointBackgroundColor : Option String := none
  pointBorderColor : Option String := none
  pointHoverBackgroundColor : Option String := none
  pointHoverBorderColor : Option String := none
deriving DecidableEq, Repr

/-- The `data` part of a Chart.js configuration. -/
structure MockData where
  labels : List String
  datasets : List Dataset
deriving DecidableEq, Repr

/-- The `font` of the title plugin. -/
structure FontSpec where
  size : Nat
  weight : String
deriving DecidableEq, Repr

/-- The `plugins.title` part of the chart options. -/
structure TitleSpec where
  display : Bool
  text : String
  font : FontSpec
deriving DecidableEq, Repr

/-- The `plugins.legend` part of the chart options. -/
structure LegendSpec where
  display : Bool
  position : String
deriving DecidableEq, Repr

/-- A single axis entry of `scales`. -/
structure AxisSpec where
  beginAtZero : Bool
deriving DecidableEq, Repr

/-- The `scales` part of the chart options (only the `y` axis is configured). -/
structure ScalesSpec where
  y : AxisSpec
deriving DecidableEq, Repr

/-- The `plugins` part of the chart options. -/
structure PluginSpec where
  title : TitleSpec
  legend : LegendSpec
deriving DecidableEq, Repr

/-- Chart.js `options` as built by `ChartTool._call`. -/
structure ChartOptions where
  responsive : Bool
  plugins : PluginSpec
  scales : Option ScalesSpec
deriving DecidableEq, Repr

/-- A full Chart.js configuration (`chartConfig` in `ChartTool._call`). -/
structure ChartConfig where
  type : String
  data : MockData
  options : ChartOptions
deriving DecidableEq, Repr

/-- Embeds `generateMockData(chartType, dataDescription)` from
`src/tools/chart-tool.js`: deterministic per-kind template data
(`dataDescription` is accepted but unused by the source as well).  The JS
numeric literal `0.1` (line tension) is modelled as the rational `1/10`. -/
def generateMockData (chartType : String) (dataDescription : String) : MockData :=
  let _ := dataDescription
  let baseLabels := ["January", "February", "March", "April", "May", "June"]
  if chartType = "line" then
    { labels := baseLabels,
      datasets := [
        { label := some "Dataset 1", data := [65, 59, 80, 81, 56, 55],
          borderColor := some (.one "rgb(75, 192, 192)"),
          backgroundColor := some (.one "rgba(75, 192, 192, 0.2)"),
          tension := some (1 / 10) },
        { label := some "Dataset 2", data := [28, 48, 40, 19, 86, 27],
          borderColor := some (.one "rgb(255, 99, 132)"),
          backgroundColor := some (.one "rgba(255, 99, 132, 0.2)"),
          tension := some (1 / 10) }] }
  else if chartType = "bar" then
    { labels := baseLabels,
      datasets := [
        { label := some "Sales", data := [12, 19, 3, 5, 2, 3],
          backgroundColor := some (.many [
            "rgba(255, 99, 132, 0.2)", "rgba(54, 162, 235, 0.2)",
            "rgba(255, 206, 86, 0.2)", "rgba(75, 192, 192, 0.2)",
            "rgba(153, 102, 255, 0.2)", "rgba(255, 159, 64, 0.2)"]),
          borderColor := some (.many [
            "rgba(255, 99, 132, 1)", "rgba(54, 162, 235, 1)",
            "rgba(255, 206, 86, 1)", "rgba(75, 192, 192, 1)",
            "rgba(153, 102, 255, 1)", "rgba(255, 159, 64, 1)"]),
          borderWidth := some 1 }] }
  else if chartType = "pie" ∨ chartType = "doughnut" then
    { labels := ["Red", "Blue", "Yellow", "Green", "Purple", "Orange"],
      datasets := [
        { data := [12, 19, 3, 5, 2, 3],
          backgroundColor := some (.many [
            "rgba(255, 99, 132, 0.8)", "rgba(54, 162, 235, 0.8)",
            "rgba(255, 206, 86, 0.8)", "rgba(75, 192, 192, 0.8)",
            "rgba(153, 102, 255, 0.8)", "rgba(255, 159, 64, 0.8)"]),
          borderWidth := some 2,
          borderColor := some (.one "#fff") }] }
  else if chartType = "radar" then
    { labels := ["Speed", "Reliability", "Comfort", "Safety", "Efficiency", "Durability"],
      datasets := [
        { label := some "Product A", data := [65, 59, 90, 81, 56, 55],
          fill := some true,
          backgroundColor := some (.one "rgba(54, 162, 235, 0.2)"),
          borderColor := some (.one "rgb(54, 162, 235)"),
          pointBackgroundColor := some "rgb(54, 162, 235)",
          pointBorderColor := some "#fff",
          pointHoverBackgroundColor := some "#fff",
          pointHoverBorderColor := some "rgb(54, 162, 235)" },
        { label := some "Product B", data := [28, 48, 40, 19, 96, 27],
          fill := some true,
          backgroundColor := some (.one "rgba(255, 99, 132, 0.2)"),
          borderColor := some (.one "rgb(255, 99, 132)"),
          pointBackgroundColor := some "rgb(255, 99, 132)",
          pointBorderColor := some "#fff",
          pointHoverBackgroundColor := some "#fff",
          pointHoverBorderColor := some "rgb(255, 99, 132)" }] }
  else
    { labels := baseLabels,
      datasets := [
        { label := some "Default Dataset", data := [1, 2, 3, 4, 5, 6],
          backgroundColor := some (.one "rgba(75, 192, 192, 0.2)"),
          borderColor := some (.one "rgb(75, 192, 192)"),
          borderWidth := some 1 }] }

/-- Chart parameters extracted from the model reply
(`{chartType, title, data}` in `executeChartTool`); every field is optional
because a JSON reply may omit any of them. -/
structure ChartParams where
  chartType : Option String := none
  title : Option String := none
  data : Option String := none
deriving DecidableEq, Repr

/-- The chart tool's JSON reply, as parsed back by `executeChartTool`
(`JSON.parse(chartResult)`). -/
structure ChartResult where
  success : Bool
  chartConfig : Option ChartConfig := none
  message : Option String := none
  error : Option String := none
deriving DecidableEq, Repr

/-- Embeds `ChartTool._call` from `src/tools/chart-tool.js`, applied to the
stringified `chartParams` object built by `executeChartTool`
(`JSON.stringify` of an object always re-parses to the same fields, so the
string round trip is the identity here).  Per-field `||` defaults mirror
`chartType || 'bar'`, `data || 'Data'`, `title || 'Chart'`; the generation
body is pure, so the `catch` branch of `_call` is unreachable. -/
def chartToolCall (params : ChartParams) : ChartResult :=
  let chartType := jsOr params.chartType "bar"
  let data := jsOr params.data "Data"
  let title := jsOr params.title "Chart"
  let mockData := generateMockData chartType data
  let chartConfig : ChartConfig :=
    { type := chartType,
      data := mockData,
      options :=
        { responsive := true,
          plugins :=
            { title := { display := true, text := title,
                         font := { size := 16, weight := "bold" } },
              legend := { display := true, position := "top" } },
          scales :=
            if chartType ≠ "pie" ∧ chartType ≠ "doughnut" then
              some { y := { beginAtZero := true } }
            else
              none } }
  { success := true,
    chartConfig := some chartConfig,
    message := some ("Generated " ++ chartType ++ " chart configuration for: " ++ title),
    error := none }

/-! ## Retrieval handler (`src/agents/rag-agent.js`) -/

/-- One knowledge entry as the code consumes a Weaviate response item:
`fileId`, `question`, `answer`, and the optional `_additional.distance`
attached by the similarity search (numeric distance abstracted as `Int`). -/
structure SearchItem where
  fileId : String
  question : String
  answer : String
  distance : Option Int := none
deriving DecidableEq, Repr

/-- The value returned by `RAGAgent.directSearch`: its `success`/`results`
tagged record, with the optional `count`, `error`, `message` and `note`
fields of the various return sites. -/
structure SearchOutcome where
  success : Bool
  results : List SearchItem := []
  count : Option Nat := none
  error : Option String := none
  message : Option String := none
  note : Option String := none
deriving DecidableEq, Repr

/-- The value returned by `RAGAgent.query`: `success`, the optional
`answer`, `sources` and `error` fields (the `catch` return site carries no
`sources` field at all, modelled as `none`). -/
structure RagResult where
  success : Bool
  answer : Option String := none
  sources : Option (List String) := none
  error : Option String := none
deriving DecidableEq, Repr

/-- The external collaborators, as oracles.  `.error msg` models the awaited
JS call throwing an exception with message `msg`.

* `classify` — the intent-classification completion call of `analyzeQuery`
  (returns `response.content`).
* `chartExtract` — the chart-parameter extraction completion call of
  `executeChartTool`, folded with the subsequent `JSON.parse` of its reply:
  `.ok none` models an unparsable reply, `.ok (some p)` a parsed one.
* `ragAnswer context question` — the answer-synthesis completion call of
  `RAGAgent.query`.
* `directAnswer` — the completion call of `directResponse`.
* `combineAnswer query chartResult ragInfo` — the synthesis completion call
  of `combineResults` (the JS passes `JSON.stringify(chartResult)`; the
  oracle receives the `ChartResult` value itself, which carries the same
  information).
* `nearText query limit` — the Weaviate GraphQL `nearText` similarity
  search (tier 1).
* `whereSearch keywords limit` — the Weaviate GraphQL `ContainsAny` keyword
  search over the `question`/`answer` fields (tier 2).
* `fetchAll limit` — the unrestricted `client.data.getter` fetch used both
  by the empty-keyword branch and by the outer `catch` fallback (tier 3);
  the response shapes of the Weaviate client are abstracted to the item
  lists the code maps over. -/
structure Env where
  classify : String → Except String String
  chartExtract : String → Except String (Option ChartParams)
  ragAnswer : String → String → Except String String
  directAnswer : String → Except String String
  combineAnswer : String → ChartResult → String → Except String String
  nearText : String → Nat → Except String (List SearchItem)
  whereSearch : List String → Nat → Except String (List SearchItem)
  fetchAll : Nat → Except String (List SearchItem)

/-- JS `\w` word characters (`[A-Za-z0-9_]`); `Char.isAlphanum` is
ASCII-only, matching the regex class. -/
def jsWordChar (c : Char) : Bool :=
  c.isAlphanum || c = '_'

/-- Embeds `query.toLowerCase().replace(/[^\w\s]/g, ' ')`: every character that is
neither a word character nor whitespace becomes a space.  JS whitespace is
abstracted to `Char.isWhitespace`. -/
def stripPunct (s : String) : String :=
  String.mk (s.data.map (fun c => if jsWordChar c || c.isWhitespace then c else ' '))

/-- The stop-word list of `RAGAgent.directSearch`. -/
def stopWords : List String :=
  ["the", "and", "or", "but", "in", "on", "at", "to", "for", "of", "with", "by"]

/-- The inline keyword extraction of `RAGAgent.directSearch`: lower-case,
replace non-word characters by spaces, `split(' ')` (single-space split,
exactly as in JS), keep tokens of length > 2 outside the stop-word list,
take the first 3. -/
def extractKeywords (query : String) : List String :=
  ((jsSplitSpace (stripPunct (jsToLower query))).filter
    (fun word => word.length > 2 && !(stopWords.contains word))).take 3

/-- The result of one `directSearch` run: the returned `SearchOutcome`
together with ghost instrumentation recording which retrieval tiers were
invoked (`ranNearText` — tier 1 similarity search, `ranKeyword` — tier 2
keyword search, `ranFetch` — the tier 3 unrestricted fetch at either of its
two call sites). -/
structure DirectSearchRun where
  outcome : SearchOutcome
  ranNearText : Bool
  ranKeyword : Bool
  ranFetch : Bool
deriving Repr

/-- The success mapping of the GraphQL return sites of `directSearch`
(`result.data.Get[CLASS_NAME] || []`, then the field-by-field `map`
including `_additional?.distance`). -/
def gqlSuccess (items : List SearchItem) : SearchOutcome :=
  { success := true,
    results := items.map (fun item =>
      { fileId := item.fileId, question := item.question,
        answer := item.answer, distance := item.distance }),
    count := some items.length }

/-- The outer-`catch` fallback of `directSearch`: retry with the
unrestricted `client.data.getter` fetch; on success map
`item.properties.{fileId,question,answer}` (no distance) and set the
fallback `note`; if this too throws, report overall failure. -/
def fetchFallback (env : Env) (limit : Nat) : SearchOutcome :=
  match env.fetchAll limit with
  | .ok allObjects =>
      { success := true,
        results := allObjects.map (fun item =>
          { fileId := item.fileId, question := item.question,
            answer := item.answer, distance := none }),
        count := some allObjects.length,
        note := some "Used fallback fetchObjects API" }
  | .error fallbackError =>
      { success := false,
        error := some fallbackError,
        message := some "Both vector search and fallback failed" }

/-- Embeds `RAGAgent.directSearch(query, limit)`: try the `nearText` similarity
search; on exception extract keywords and either run the unrestricted fetch
(no keywords) or the `ContainsAny` keyword search; any exception escaping
that inner handling lands in the outer `catch`, which retries with the
unrestricted fetch and only then reports failure. -/
def directSearch (env : Env) (query : String) (limit : Nat) : DirectSearchRun :=
  match env.nearText query limit with
  | .ok items =>
      { outcome := gqlSuccess items,
        ranNearText := true, ranKeyword := false, ranFetch := false }
  | .error _ =>
      let keywords := extractKeywords query
      if keywords.isEmpty then
        match env.fetchAll limit with
        | .ok items =>
            { outcome := gqlSuccess items,
              ranNearText := true, ranKeyword := false, ranFetch := true }
        | .error _ =>
            { outcome := fetchFallback env limit,
              ranNearText := true, ranKeyword := false, ranFetch := true }
      else
        match env.whereSearch keywords limit with
        | .ok items =>
            { outcome := gqlSuccess items,
              ranNearText := true, ranKeyword := true, ranFetch := false }
        | .error _ =>
            { outcome := fetchFallback env limit,
              ranNearText := true, ranKeyword := true, ranFetch := true }

/-- The retrieved-information context block of `RAGAgent.query`:
`File: <id>\nQuestion: <q>\nAnswer: <a>\n` per entry, joined with `\n`. -/
def buildContext (results : List SearchItem) : String :=
  String.intercalate "\n" (results.map (fun r =>
    "File: " ++ r.fileId ++ "\nQuestion: " ++ r.question ++
    "\nAnswer: " ++ r.answer ++ "\n"))

/-- Embeds `RAGAgent.query(userQuery)`: run `directSearch` with limit 3; a failed
or empty search yields the soft "not found" outcome; otherwise synthesize
an answer over the context block; an exception from the completion call is
caught and converted into the error outcome (whose return site sets no
`sources` field). -/
def ragQuery (env : Env) (userQuery : String) : RagResult :=
  let searchResults := (directSearch env userQuery 3).outcome
  if !searchResults.success || searchResults.results.length = 0 then
    { success := false,
      answer := some "I could not find relevant information in the database.",
      sources := some [] }
  else
    let context := buildContext searchResults.results
    match env.ragAnswer context userQuery with
    | .ok response =>
        { success := true,
          answer := some response,
          sources := some (searchResults.results.map (·.fileId)) }
    | .error e =>
        { success := false,
          error := some e,
          answer := some "I encountered an error while processing your query." }

/-! ## Orchestrator (`src/agents/delegating-agent.js`) -/

/-- One entry of the `messages` channel. -/
structure Message where
  role : String
  content : String
deriving DecidableEq, Repr

/-- The `references` object of a final response: `{}` (ragSources absent)
or `{ ragSources: [...] }`. -/
structure References where
  ragSources : Option (List String) := none
deriving DecidableEq, Repr

/-- The `finalResponse` object handed to the transport layer:
`{answer, references, fileIds, chartConfig}`. -/
structure FinalResponse where
  answer : String
  references : References
  fileIds : List String
  chartConfig : Option ChartConfig
deriving DecidableEq, Repr

/-- The LangGraph state channels of `DelegatingAgent.setupGraph`, plus the
two ghost run counters (`chartToolRuns` / `ragAgentRuns` count the calls to
`chartTool` and `ragAgent.query`; they are instrumentation, not part of the
JS state schema). -/
structure GraphState where
  userQuery : String
  messages : List Message
  decision : Option String := none
  chartResult : Option ChartResult := none
  ragResult : Option RagResult := none
  finalResponse : Option FinalResponse := none
  chartToolRuns : Nat := 0
  ragAgentRuns : Nat := 0
deriving Repr

/-- The `messages` channel value after a node returns
`[...state.messages, {role: 'assistant', content}]`: the channel reducer
`(x, y) => x.concat(y)` concatenates the returned array onto the existing
value. -/
def chanMsgs (st : GraphState) (content : String) : List Message :=
  st.messages ++ (st.messages ++ [{ role := "assistant", content := content }])

/-- The initial state built by `processQuery`:
`{ userQuery, messages: [{role: 'user', content: userQuery}] }`. -/
def initState (userQuery : String) : GraphState :=
  { userQuery := userQuery,
    messages := [{ role := "user", content := userQuery }] }

/-- Embeds `DelegatingAgent.analyzeQuery`: one classification completion call; its
reply is lower-cased then trimmed and stored as the decision verbatim (no
validation).  The call is not wrapped in a `try`, so an exception escapes
the node — the second component carries the uncaught error, with the state
channels unchanged. -/
def analyzeQuery (env : Env) (st : GraphState) : GraphState × Option String :=
  match env.classify st.userQuery with
  | .error e => (st, some e)
  | .ok content =>
      let decision := jsTrim (jsToLower content)
      ({ st with
          decision := some decision,
          messages := chanMsgs st ("Decision: " ++ decision) }, none)

/-- Embeds `DelegatingAgent.routeDecision`: the conditional-edge router; `both`
starts with the chart tool (retrieval is deferred to `combineResults`), and
anything that is not one of the three recognized tokens goes to the direct
response node. -/
def routeDecision (st : GraphState) : String :=
  if st.decision = some "chart" then "chart_tool"
  else if st.decision = some "rag" then "rag_agent"
  else if st.decision = some "both" then "chart_tool"
  else "direct_response"

/-- The default parameters substituted when the extraction reply fails to
parse as JSON (the inner `catch` of `executeChartTool`). -/
def defaultChartParams (userQuery : String) : ChartParams :=
  { chartType := some "bar", title := some "Data Visualization", data := some userQuery }

/-- Embeds `DelegatingAgent.executeChartTool`: extraction completion call; a parse
failure substitutes `defaultChartParams`; the chart tool itself is pure, so
the outer `catch` fires exactly when the extraction call throws, producing
the `{success: false, error}` chart result.  The node never re-raises. -/
def executeChartTool (env : Env) (st : GraphState) : GraphState :=
  match env.chartExtract st.userQuery with
  | .error e =>
      { st with
          chartResult := some { success := false, error := some e },
          messages := chanMsgs st "Chart tool failed",
          chartToolRuns := st.chartToolRuns + 1 }
  | .ok parsed =>
      let chartParams :=
        match parsed with
        | some p => p
        | none => defaultChartParams st.userQuery
      { st with
          chartResult := some (chartToolCall chartParams),
          messages := chanMsgs st "Chart tool executed",
          chartToolRuns := st.chartToolRuns + 1 }

/-- Embeds `DelegatingAgent.executeRAGAgent`: runs `ragAgent.query`, which never
throws (its exceptions are caught inside `query`), so the node's own
`catch` is unreachable. -/
def executeRAGAgent (env : Env) (st : GraphState) : GraphState :=
  { st with
      ragResult := some (ragQuery env st.userQuery),
      messages := chanMsgs st "RAG agent executed",
      ragAgentRuns := st.ragAgentRuns + 1 }

/-- Embeds `DelegatingAgent.directResponse`: one completion call, not wrapped in a
`try`; an exception escapes the node (second component), otherwise the
final response is written. -/
def directResponse (env : Env) (st : GraphState) : GraphState × Option String :=
  match env.directAnswer st.userQuery with
  | .error e => (st, some e)
  | .ok content =>
      ({ st with
          finalResponse := some
            { answer := content, references := {}, fileIds := [], chartConfig := none },
          messages := chanMsgs st content }, none)

/-- The deferred-retrieval step at the top of `combineResults`: run
`ragAgent.query` now exactly when a chart result is present, no rag result
is present, and the decision was `both`; otherwise keep the existing rag
result. -/
def effectiveRag (env : Env) (st : GraphState) : Option RagResult :=
  if st.chartResult.isSome && st.ragResult.isNone && st.decision = some "both" then
    some (ragQuery env st.userQuery)
  else
    st.ragResult

/-- Embeds `DelegatingAgent.combineResults`.  After the deferred-retrieval step,
assemble `finalAnswer`/`references`/`fileIds`/`chartConfig` from the
successful results; when both succeeded, one synthesis completion call
replaces the assembled answer — that call is the only exception source
inside the `try`, and the `catch` converts it into the generic error
response.  The node only writes the `finalResponse` and `messages` channels
(the locally computed rag result is not written back), plus the ghost
`ragAgentRuns` counter. -/
def combineResults (env : Env) (st : GraphState) : GraphState :=
  let ragResult := effectiveRag env st
  let ragRuns := st.ragAgentRuns +
    (if st.chartResult.isSome && st.ragResult.isNone && st.decision = some "both" then 1 else 0)
  let chartOk := match st.chartResult with | some cr => cr.success | none => false
  let ragOk := match ragResult with | some rr => rr.success | none => false
  let chartConfig := if chartOk then st.chartResult.bind (·.chartConfig) else none
  let assembled :=
    (if chartOk then "I've created a chart for you. " else "") ++
    (if ragOk then jsStr (ragResult.bind (·.answer)) else "")
  let fileIds := if ragOk then jsList (ragResult.bind (·.sources)) else []
  let references : References :=
    if ragOk then { ragSources := some fileIds } else {}
  let step : Except String String :=
    match st.chartResult, ragResult with
    | some cr, some rr =>
        if cr.success && rr.success then
          env.combineAnswer st.userQuery cr (jsStr rr.answer)
        else .ok assembled
    | _, _ => .ok assembled
  match step with
  | .error _ =>
      { st with
          finalResponse := some
            { answer := "I encountered an error while processing your request.",
              references := {}, fileIds := [], chartConfig := none },
          messages := chanMsgs st "Error in combining results",
          ragAgentRuns := ragRuns }
  | .ok replaced =>
      let finalAnswer :=
        if replaced = "" then
          if chartOk then jsOr (st.chartResult.bind (·.message)) "Chart created successfully."
          else if ragOk then jsStr (ragResult.bind (·.answer))
          else "I encountered an error processing your request."
        else replaced
      { st with
          finalResponse := some
            { answer := finalAnswer, references := references,
              fileIds := fileIds, chartConfig := chartConfig },
          messages := chanMsgs st finalAnswer,
          ragAgentRuns := ragRuns }

/-- One run of the compiled graph on the initial state: `analyze_query`,
then the conditional edge, then the chosen node followed by
`combine_results` (or the terminal `direct_response`).  The second
component carries an exception that escaped a node (only `analyze_query`
and `direct_response` can raise; every other node catches internally). -/
def runGraph (env : Env) (userQuery : String) : GraphState × Option String :=
  match analyzeQuery env (initState userQuery) with
  | (st1, some e) => (st1, some e)
  | (st1, none) =>
      let node := routeDecision st1
      if node = "chart_tool" then
        (combineResults env (executeChartTool env st1), none)
      else if node = "rag_agent" then
        (combineResults env (executeRAGAgent env st1), none)
      else
        directResponse env st1

/-- The fallback response of `processQuery` when the graph run left no
final response (`result.finalResponse || {...}`). -/
def noResponseFallback : FinalResponse :=
  { answer := "No response generated.", references := {}, fileIds := [], chartConfig := none }

/-- The `catch` response of `processQuery`. -/
def processQueryCatch : FinalResponse :=
  { answer := "I encountered an error while processing your query.",
    references := {}, fileIds := [], chartConfig := none }

/-- Embeds `DelegatingAgent.processQuery(userQuery)` as seen by the transport
layer: the result type still admits an uncaught exception (`.error`), but
the body's `try`/`catch` converts every escaped graph exception into the
generic response, and a missing final response into the fallback. -/
def processQueryE (env : Env) (userQuery : String) : Except String FinalResponse :=
  match runGraph env userQuery with
  | (st, none) => .ok (st.finalResponse.getD noResponseFallback)
  | (_, some _) => .ok processQueryCatch

/-! ## Concrete collaborator environments used in witnesses and
counterexamples -/

/-- A base environment in which every collaborator call throws. -/
def envErr : Env :=
  { classify := fun _ => .error "unavailable",
    chartExtract := fun _ => .error "unavailable",
    ragAnswer := fun _ _ => .error "unavailable",
    directAnswer := fun _ => .error "unavailable",
    combineAnswer := fun _ _ _ => .error "unavailable",
    nearText := fun _ _ => .error "unavailable",
    whereSearch := fun _ _ => .error "unavailable",
    fetchAll := fun _ => .error "unavailable" }

/-- A sample knowledge entry. -/
def itemA : SearchItem :=
  { fileId := "file_001", question := "What is machine learning?", answer := "ML is a subset of AI." }

/-- Environment for the retrieval-error scenarios: the similarity search
succeeds with one entry, the answer-synthesis completion call throws. -/
def envC4 : Env :=
  { envErr with
      nearText := fun _ _ => .ok [itemA],
      ragAnswer := fun _ _ => .error "boom" }

/-- Environment for the soft-miss scenario: the similarity search succeeds
with zero entries. -/
def envC7 : Env :=
  { envErr with nearText := fun _ _ => .ok [] }

/-- Environment for the fallback-chain scenario: the similarity search
throws, keyword search and unrestricted fetch succeed (empty). -/
def envC5 : Env :=
  { envErr with
      nearText := fun _ _ => .error "down",
      whereSearch := fun _ _ => .ok [],
      fetchAll := fun _ => .ok [] }

/-! ## C6 — keyword extraction -/

/-- Claim C6: keyword extraction is a deterministic pure function of the
query string (`extractKeywords` is a Lean function of the query alone, so
purity and determinism hold by construction); on the input
"What is the Capital of France?" it returns exactly
["what", "capital", "france"] in that order. -/
theorem c6_keyword_extraction :
    extractKeywords "What is the Capital of France?" = ["what", "capital", "france"] := by
  decide

/-! ## C7 — soft-miss contract -/

/-- Claim C7: if the retrieval fallback chain succeeds but yields zero
entries, `RAGAgent.query` returns the fixed soft-miss outcome
(ok = false, the fixed "not found" answer string, empty sources) without
raising (`ragQuery` is a total function: every exception inside `query` is
caught). -/
theorem c7_soft_miss (env : Env) (q : String)
    (hs : (directSearch env q 3).outcome.success = true)
    (he : (directSearch env q 3).outcome.results = []) :
    ragQuery env q =
      { success := false,
        answer := some "I could not find relevant information in the database.",
        sources := some [],
        error := none } := by
  have hlen : (directSearch env q 3).outcome.results.length = 0 := by
    rw [he]; rfl
  simp [ragQuery, hlen]

/-- Witness for C7 at a concrete environment: the similarity search
succeeds and returns zero entries. -/
theorem c7_soft_miss_witness :
    ragQuery envC7 "What is machine learning?" =
      { success := false,
        answer := some "I could not find relevant information in the database.",
        sources := some [],
        error := none } :=
  c7_soft_miss envC7 "What is machine learning?" (by decide) (by decide)

/-! ## C4 — retrieval handler failure semantics -/

/-- Counterexample to claim C4 as stated: when the completion call inside
the retrieval handler raises, the returned outcome has `answer` set to the
fixed apology string (not null) and carries no `sources` field (not an
empty list). -/
theorem c4_catch_shape_cex :
    (ragQuery envC4 "What is machine learning?").success = false ∧
      (ragQuery envC4 "What is machine learning?").error = some "boom" ∧
      (ragQuery envC4 "What is machine learning?").answer =
        some "I encountered an error while processing your query." ∧
      (ragQuery envC4 "What is machine learning?").answer ≠ none ∧
      (ragQuery envC4 "What is machine learning?").sources = none ∧
      (ragQuery envC4 "What is machine learning?").sources ≠ some [] := by
  decide

/-- Claim C4 amended: if the completion call inside the retrieval handler
raises, the handler returns ok = false with `errorDetail` the exception
message, `answerText` the fixed string "I encountered an error while
processing your query." (not null), and no `sources` field at all; the
exception never propagates (`ragQuery` is total). -/
theorem c4_catch_shape (env : Env) (q m : String)
    (hs : (directSearch env q 3).outcome.success = true)
    (hne : (directSearch env q 3).outcome.results ≠ [])
    (hc : env.ragAnswer (buildContext (directSearch env q 3).outcome.results) q =
      .error m) :
    ragQuery env q =
      { success := false,
        error := some m,
        answer := some "I encountered an error while processing your query.",
        sources := none } := by
  have hlen : ¬ (directSearch env q 3).outcome.results.length = 0 := by
    simpa [List.length_eq_zero] using hne
  simp [ragQuery, hs, hlen, hc]

/-- Witness for the amended C4 at a concrete environment. -/
theorem c4_catch_shape_witness :
    ragQuery envC4 "What is machine learning?" =
      { success := false,
        error := some "boom",
        answer := some "I encountered an error while processing your query.",
        sources := none } :=
  c4_catch_shape envC4 "What is machine learning?" "boom" (by decide) (by decide) rfl

/-! ## C5 — fallback chain ordering -/

/-- Counterexample to claim C5 as stated ("tier 2 is invoked if and only if
tier 1 raises"): with the similarity search raising and the query "is at"
(every token too short), keyword extraction is empty, and the keyword
search is NOT invoked even though tier 1 raised. -/
theorem c5_fallback_order_cex :
    exceptErr (envC5.nearText "is at" 3) = true ∧
      extractKeywords "is at" = [] ∧
      (directSearch envC5 "is at" 3).ranKeyword = false ∧
      (directSearch envC5 "is at" 3).ranFetch = true := by
  decide

/-- Claim C5 amended: the keyword search (tier 2) is invoked if and only if
the similarity search (tier 1) raises AND keyword extraction produces at
least one token; the unrestricted fetch (tier 3) is invoked if and only if
tier 1 raises and either keyword extraction is empty or tier 2 raises.
In particular a successful similarity search — even with zero results — is
never retried at a lower tier. -/
theorem c5_fallback_order (env : Env) (q : String) (limit : Nat) :
    (directSearch env q limit).ranKeyword =
        (exceptErr (env.nearText q limit) && !(extractKeywords q).isEmpty) ∧
      (directSearch env q limit).ranFetch =
        (exceptErr (env.nearText q limit) &&
          ((extractKeywords q).isEmpty ||
            exceptErr (env.whereSearch (extractKeywords q) limit))) := by
  unfold directSearch
  cases hn : env.nearText q limit with
  | ok items => simp [exceptErr]
  | error e =>
    by_cases hk : (extractKeywords q).isEmpty
    · simp only [hk, if_true]
      cases hf : env.fetchAll limit <;> simp [exceptErr, hk]
    · simp only [hk, if_false]
      cases hw : env.whereSearch (extractKeywords q) limit <;>
        simp [exceptErr, hk, hw]

/-! ## C1 — classification fallback -/

/-- Environment whose classification reply is not one of the four tokens. -/
def envC1 : Env :=
  { envErr with classify := fun _ => .ok "Banana " }

/-- Counterexample to claim C1 as stated: a classification reply whose
lower-cased, trimmed text is "banana" does not fail the request, but the
resolved decision is "banana" routed to the direct-response node — not
`rag`. -/
theorem c1_classification_fallback_cex :
    (analyzeQuery envC1 (initState "hello")).2 = none ∧
      (analyzeQuery envC1 (initState "hello")).1.decision = some "banana" ∧
      (analyzeQuery envC1 (initState "hello")).1.decision ≠ some "rag" ∧
      routeDecision (analyzeQuery envC1 (initState "hello")).1 = "direct_response" ∧
      ("direct_response" : String) ≠ "rag_agent" := by
  decide

/-- Claim C1 amended: for every classification reply whose lower-cased,
trimmed text is not one of the four tokens, the classification step does
not fail the request; the unmatched text is stored as the decision
verbatim, and the router sends it to the direct-response path (the
`direct` treatment), not to the retrieval path. -/
theorem c1_classification_fallback (env : Env) (st : GraphState) (t : String)
    (hc : env.classify st.userQuery = .ok t)
    (hne : jsTrim (jsToLower t) ∉ ["chart", "rag", "both", "direct"]) :
    (analyzeQuery env st).2 = none ∧
      (analyzeQuery env st).1.decision = some (jsTrim (jsToLower t)) ∧
      routeDecision (analyzeQuery env st).1 = "direct_response" := by
  simp only [List.mem_cons, List.mem_singleton, not_or] at hne
  obtain ⟨h1, h2, h3, _⟩ := hne
  simp [analyzeQuery, hc, routeDecision, h1, h2, h3]

/-- Witness for the amended C1 at a concrete environment. -/
theorem c1_classification_fallback_witness :
    (analyzeQuery envC1 (initState "hello")).2 = none ∧
      (analyzeQuery envC1 (initState "hello")).1.decision =
        some (jsTrim (jsToLower "Banana ")) ∧
      routeDecision (analyzeQuery envC1 (initState "hello")).1 = "direct_response" :=
  c1_classification_fallback envC1 (initState "hello") "Banana " rfl (by decide)

/-! ## C2 — no-throw guarantee of processQuery -/

/-- Claim C2: for every environment of collaborator behaviors (successes,
failures and raised exceptions) and every query, `processQuery` returns a
well-formed `FinalResponse` and never raises: the result is always
`Except.ok`, every escaped graph exception having been converted by the
`catch` into the generic response. -/
theorem c2_no_throw (env : Env) (q : String) :
    ∃ r : FinalResponse, processQueryE env q = Except.ok r := by
  unfold processQueryE
  cases hr : runGraph env q with
  | mk st e =>
    cases e with
    | none => exact ⟨st.finalResponse.getD noResponseFallback, rfl⟩
    | some err => exact ⟨processQueryCatch, rfl⟩

/-! ## C3 — combination with only the visualization succeeding -/

/-- A failed retrieval outcome. -/
def rrBoom : RagResult :=
  { success := false, error := some "boom" }

/-- A successful chart result with title "T". -/
def crT : ChartResult :=
  chartToolCall { chartType := some "bar", title := some "T", data := some "d" }

/-- A state in which the chart tool succeeded and the retrieval handler
failed. -/
def stC3 : GraphState :=
  { userQuery := "q", messages := [],
    decision := some "chart",
    chartResult := some crT,
    ragResult := some rrBoom }

/-- Counterexample to claim C3 as stated: with a successful visualization
outcome and a failed retrieval outcome, the final answer text is the fixed
string "I've created a chart for you. " — not the visualization outcome's
generation message. -/
theorem c3_partial_combination_cex :
    ((combineResults envErr stC3).finalResponse.map (·.answer)) =
        some "I've created a chart for you. " ∧
      crT.message = some "Generated bar chart configuration for: T" ∧
      ("I've created a chart for you. " : String) ≠
        "Generated bar chart configuration for: T" ∧
      ((combineResults envErr stC3).finalResponse.map (·.chartConfig)) =
        some crT.chartConfig ∧
      crT.chartConfig.isSome = true := by
  decide

/-- Claim C3 amended: in the combination step, if the visualization outcome
is successful and the retrieval outcome (after the deferred `both`
execution) is absent or unsuccessful, the final answer text is the fixed
string "I've created a chart for you. " (neither the visualization
outcome's generation message nor the generic error string), and the final
`chartConfig` is the visualization outcome's `chartConfig`. -/
theorem c3_partial_combination (env : Env) (st : GraphState) (cr : ChartResult)
    (hcr : st.chartResult = some cr)
    (hok : cr.success = true)
    (hrag : ∀ rr, effectiveRag env st = some rr → rr.success = false) :
    (combineResults env st).finalResponse =
      some { answer := "I've created a chart for you. ",
             references := {},
             fileIds := [],
             chartConfig := cr.chartConfig } := by
  cases hr : effectiveRag env st with
  | none => simp [combineResults, hcr, hok, hr]
  | some rr =>
    have hf : rr.success = false := hrag rr hr
    simp [combineResults, hcr, hok, hr, hf]

/-- Witness for the amended C3 at a concrete state and environment. -/
theorem c3_partial_combination_witness :
    (combineResults envErr stC3).finalResponse =
      some { answer := "I've created a chart for you. ",
             references := {},
             fileIds := [],
             chartConfig := crT.chartConfig } :=
  c3_partial_combination envErr stC3 crT rfl rfl (by
    intro rr hr
    have h : rrBoom = rr := by
      have h2 := hr
      rw [show effectiveRag envErr stC3 = some rrBoom from rfl] at h2
      exact Option.some.inj h2
    rw [← h]
    rfl)

/-! ## C8 — visualization handler output shape -/

/-- Chart parameters as extracted from a parseable completion reply. -/
def pC8 : ChartParams :=
  { chartType := some "bar", title := some "Sales", data := some "sales data" }

/-- Environment whose chart-parameter extraction succeeds and parses. -/
def envC8 : Env :=
  { envErr with chartExtract := fun _ => .ok (some pC8) }

/-- Counterexample to claim C8 as stated: the success message of the chart
tool is "Generated <kind> chart configuration for: <title>" — the word
"configuration" is part of the fixed template — so it differs from the
claimed "Generated <kind> chart for: <title>". -/
theorem c8_visualization_output_cex :
    ((executeChartTool envC8 (initState "q")).chartResult.bind (·.message)) =
        some "Generated bar chart configuration for: Sales" ∧
      ((executeChartTool envC8 (initState "q")).chartResult.bind (·.message)) ≠
        some "Generated bar chart for: Sales" ∧
      ((executeChartTool envC8 (initState "q")).chartResult.map (·.success)) =
        some true := by
  decide

/-- Claim C8 amended: the visualization handler never throws to its caller
(`executeChartTool` is total); if the extraction call raises, it returns an
ok = false result carrying the exception message as `errorDetail`; if the
extraction reply fails to parse, the defaults {chartKind "bar", title
"Data Visualization", data = the original query} are substituted; and on
success the result has ok = true, a non-null chartSpec, and message
"Generated <kind> chart configuration for: <title>". -/
theorem c8_visualization_output (env : Env) (st : GraphState) :
    (∀ m, env.chartExtract st.userQuery = .error m →
        (executeChartTool env st).chartResult =
          some { success := false, chartConfig := none, message := none, error := some m }) ∧
      (env.chartExtract st.userQuery = .ok none →
        (executeChartTool env st).chartResult =
          some (chartToolCall (defaultChartParams st.userQuery))) ∧
      (∀ p, env.chartExtract st.userQuery = .ok (some p) →
        (executeChartTool env st).chartResult = some (chartToolCall p)) ∧
      (∀ p, (chartToolCall p).success = true ∧
        (chartToolCall p).chartConfig.isSome = true ∧
        (chartToolCall p).message =
          some ("Generated " ++ jsOr p.chartType "bar" ++
            " chart configuration for: " ++ jsOr p.title "Chart")) := by
  refine ⟨?_, ?_, ?_, ?_⟩
  · intro m hm; simp [executeChartTool, hm]
  · intro hm; simp [executeChartTool, hm]
  · intro p hm; simp [executeChartTool, hm]
  · intro p; exact ⟨rfl, rfl, rfl⟩

/-- Witness for the amended C8 at a concrete environment. -/
theorem c8_visualization_output_witness :
    (executeChartTool envC8 (initState "q")).chartResult = some (chartToolCall pC8) ∧
      (chartToolCall pC8).success = true ∧
      (chartToolCall pC8).message =
        some ("Generated " ++ jsOr pC8.chartType "bar" ++
          " chart configuration for: " ++ jsOr pC8.title "Chart") :=
  ⟨(c8_visualization_output envC8 (initState "q")).2.2.1 pC8 rfl,
   ((c8_visualization_output envC8 (initState "q")).2.2.2 pC8).1,
   ((c8_visualization_output envC8 (initState "q")).2.2.2 pC8).2.2⟩

/-! ## C9 — single dispatch -/

/-- State effect of the chart-tool node: it increments the chart counter,
touches neither the retrieval counter nor the routing fields, and always
stores a chart result. -/
theorem executeChartTool_state (env : Env) (st : GraphState) :
    (executeChartTool env st).chartToolRuns = st.chartToolRuns + 1 ∧
      (executeChartTool env st).ragAgentRuns = st.ragAgentRuns ∧
      (executeChartTool env st).decision = st.decision ∧
      (executeChartTool env st).ragResult = st.ragResult ∧
      (executeChartTool env st).chartResult.isSome = true := by
  unfold executeChartTool
  cases env.chartExtract st.userQuery with
  | error e => exact ⟨rfl, rfl, rfl, rfl, rfl⟩
  | ok p => exact ⟨rfl, rfl, rfl, rfl, rfl⟩

/-- State effect of the retrieval node: it increments the retrieval counter
and leaves the chart result and routing fields unchanged. -/
theorem executeRAGAgent_state (env : Env) (st : GraphState) :
    (executeRAGAgent env st).chartToolRuns = st.chartToolRuns ∧
      (executeRAGAgent env st).ragAgentRuns = st.ragAgentRuns + 1 ∧
      (executeRAGAgent env st).decision = st.decision ∧
      (executeRAGAgent env st).chartResult = st.chartResult :=
  ⟨rfl, rfl, rfl, rfl⟩

/-- State effect of the combination node: it runs the retrieval handler
exactly once more when a chart result is present, no retrieval result is
present and the decision was `both`, and otherwise not at all. -/
theorem combineResults_state (env : Env) (st : GraphState) :
    (combineResults env st).chartToolRuns = st.chartToolRuns ∧
      (combineResults env st).decision = st.decision ∧
      (combineResults env st).ragAgentRuns = st.ragAgentRuns +
        (if st.chartResult.isSome && st.ragResult.isNone && st.decision = some "both"
         then 1 else 0) := by
  simp only [combineResults]
  repeat' split
  all_goals exact ⟨rfl, rfl, rfl⟩

/-- State effect of the direct-response node. -/
theorem directResponse_state (env : Env) (st : GraphState) :
    (directResponse env st).1.chartToolRuns = st.chartToolRuns ∧
      (directResponse env st).1.ragAgentRuns = st.ragAgentRuns ∧
      (directResponse env st).1.decision = st.decision := by
  unfold directResponse
  cases env.directAnswer st.userQuery with
  | error e => exact ⟨rfl, rfl, rfl⟩
  | ok t => exact ⟨rfl, rfl, rfl⟩

/-- Counters along the chart-then-combine path. -/
theorem chartPath_counts (env : Env) (st1 : GraphState) :
    (combineResults env (executeChartTool env st1)).chartToolRuns =
        st1.chartToolRuns + 1 ∧
      (combineResults env (executeChartTool env st1)).ragAgentRuns =
        st1.ragAgentRuns +
          (if st1.ragResult.isNone && st1.decision = some "both" then 1 else 0) ∧
      (combineResults env (executeChartTool env st1)).decision = st1.decision := by
  obtain ⟨e1, e2, e3, e4, e5⟩ := executeChartTool_state env st1
  obtain ⟨c1, c2, c3⟩ := combineResults_state env (executeChartTool env st1)
  refine ⟨by rw [c1, e1], ?_, by rw [c2, e3]⟩
  rw [c3, e2]
  congr 1
  rw [e5, e4, e3]
  simp

/-- Counters along the retrieval-then-combine path (no chart result is
present, so the combination step does not run the retrieval handler
again). -/
theorem ragPath_counts (env : Env) (st1 : GraphState)
    (hchart : st1.chartResult = none) :
    (combineResults env (executeRAGAgent env st1)).chartToolRuns =
        st1.chartToolRuns ∧
      (combineResults env (executeRAGAgent env st1)).ragAgentRuns =
        st1.ragAgentRuns + 1 ∧
      (combineResults env (executeRAGAgent env st1)).decision = st1.decision := by
  obtain ⟨e1, e2, e3, e4⟩ := executeRAGAgent_state env st1
  obtain ⟨c1, c2, c3⟩ := combineResults_state env (executeRAGAgent env st1)
  refine ⟨by rw [c1, e1], ?_, by rw [c2, e3]⟩
  rw [c3, e2, e4, hchart]
  simp

/-- A decision of `both` always routes to the chart-tool node. -/
theorem routeDecision_both (st : GraphState) (hb : st.decision = some "both") :
    routeDecision st = "chart_tool" := by
  simp [routeDecision, hb]

/-- Counter bounds for the routed part of the graph, for any state (as
produced by the classification node) with fresh counters and no stored
results. -/
theorem routeRun_counts (env : Env) (st1 : GraphState)
    (h0c : st1.chartToolRuns = 0) (h0r : st1.ragAgentRuns = 0)
    (hnc : st1.chartResult = none) (hnr : st1.ragResult = none) :
    (if routeDecision st1 = "chart_tool" then
        (combineResults env (executeChartTool env st1), none)
      else if routeDecision st1 = "rag_agent" then
        (combineResults env (executeRAGAgent env st1), none)
      else directResponse env st1).1.chartToolRuns ≤ 1 ∧
    (if routeDecision st1 = "chart_tool" then
        (combineResults env (executeChartTool env st1), none)
      else if routeDecision st1 = "rag_agent" then
        (combineResults env (executeRAGAgent env st1), none)
      else directResponse env st1).1.ragAgentRuns ≤ 1 ∧
    ((if routeDecision st1 = "chart_tool" then
        (combineResults env (executeChartTool env st1), none)
      else if routeDecision st1 = "rag_agent" then
        (combineResults env (executeRAGAgent env st1), none)
      else directResponse env st1).1.decision = some "both" →
      (if routeDecision st1 = "chart_tool" then
        (combineResults env (executeChartTool env st1), none)
      else if routeDecision st1 = "rag_agent" then
        (combineResults env (executeRAGAgent env st1), none)
      else directResponse env st1).1.ragAgentRuns = 1) := by
  by_cases hA : routeDecision st1 = "chart_tool"
  · obtain ⟨p1, p2, p3⟩ := chartPath_counts env st1
    rw [if_pos hA]
    refine ⟨?_, ?_, ?_⟩
    · simp only [p1, h0c]
      omega
    · simp only [p2, h0r]
      split <;> omega
    · intro hd
      simp only [p3] at hd
      simp only [p2, h0r, hnr, hd]
      simp
  · by_cases hB : routeDecision st1 = "rag_agent"
    · obtain ⟨p1, p2, p3⟩ := ragPath_counts env st1 hnc
      rw [if_neg hA, if_pos hB]
      refine ⟨?_, ?_, ?_⟩
      · simp only [p1, h0c]; omega
      · simp only [p2, h0r]; omega
      · intro hd
        simp only [p2, h0r]
    · obtain ⟨p1, p2, p3⟩ := directResponse_state env st1
      rw [if_neg hA, if_neg hB]
      refine ⟨?_, ?_, ?_⟩
      · simp only [p1, h0c]; omega
      · simp only [p2, h0r]; omega
      · intro hd
        simp only [p3] at hd
        exact absurd (routeDecision_both st1 hd) hA

/-- Claim C9: per request at most one visualization execution and at most
one retrieval execution occur; a decision of `both` routes only to the
chart-tool node, and the retrieval handler then runs exactly once — during
the combination step — and only if no retrieval result is already
present. -/
theorem c9_single_dispatch (env : Env) (q : String) (st : GraphState)
    (hb : st.decision = some "both") :
    routeDecision st = "chart_tool" ∧
      (runGraph env q).1.chartToolRuns ≤ 1 ∧
      (runGraph env q).1.ragAgentRuns ≤ 1 ∧
      ((runGraph env q).1.decision = some "both" →
        (runGraph env q).1.ragAgentRuns = 1) ∧
      (st.ragResult.isSome = true →
        (combineResults env st).ragAgentRuns = st.ragAgentRuns) := by
  have hroute := routeDecision_both st hb
  have hcomb : st.ragResult.isSome = true →
      (combineResults env st).ragAgentRuns = st.ragAgentRuns := by
    intro hsome
    obtain ⟨-, -, h3⟩ := combineResults_state env st
    rw [h3]
    cases hx : st.ragResult with
    | none => rw [hx] at hsome; simp at hsome
    | some r => simp [hx]
  have hrun : (runGraph env q).1.chartToolRuns ≤ 1 ∧
      (runGraph env q).1.ragAgentRuns ≤ 1 ∧
      ((runGraph env q).1.decision = some "both" →
        (runGraph env q).1.ragAgentRuns = 1) := by
    unfold runGraph
    simp only [initState]
    cases hc : env.classify q with
    | error e => simp [analyzeQuery, hc]
    | ok t =>
      simp only [analyzeQuery, hc]
      exact routeRun_counts env _ rfl rfl rfl rfl
  exact ⟨hroute, hrun.1, hrun.2.1, hrun.2.2, hcomb⟩

/-- Environment whose classification reply is "both" and whose other
collaborators throw. -/
def envC9 : Env :=
  { envErr with classify := fun _ => .ok "both" }

/-- A `both` state that already carries a retrieval result. -/
def stC9 : GraphState :=
  { userQuery := "q", messages := [], decision := some "both",
    ragResult := some rrBoom }

/-- Witness for C9 at a concrete environment and state. -/
theorem c9_single_dispatch_witness :
    routeDecision stC9 = "chart_tool" ∧
      (runGraph envC9 "q").1.ragAgentRuns = 1 ∧
      (combineResults envC9 stC9).ragAgentRuns = stC9.ragAgentRuns :=
  ⟨(c9_single_dispatch envC9 "q" stC9 rfl).1,
   (c9_single_dispatch envC9 "q" stC9 rfl).2.2.2.1 (by decide),
   (c9_single_dispatch envC9 "q" stC9 rfl).2.2.2.2 (by decide)⟩
